import Mathlib

/-!
Verification of the Daily Cycle Orchestrator of `src/game-master/game_master.py`
(class `GameMasterAgent`), shallowly embedded in Lean 4.

External collaborators (the strands `Agent` text-generation call, the npcpy
NPC dialogue calls, the MCP tool discovery handshake) are modelled as
explicit function parameters returning `Except String α`: `.error e` stands
for the Python call raising an exception `e`, `.ok v` for a normal return.
Adapter degradation (`self.agent is None`, `self.npc_manager is None`) is
modelled with `Option`.  Mutation of `self.world_state` is modelled by
explicit state passing.  Logging calls and the wall-clock `timestamp` field
of the result dictionary are elided (they carry no game state).
-/

/-- One entry of `world_state["npc_interactions"]`: the Python dict
`{"npc": ..., "dialogue": ...}` built in `generate_daily_episode`. -/
structure NpcDialogue where
  npc : String
  dialogue : String
deriving DecidableEq

/-- The `self.world_state` dict created in `GameMasterAgent.__init__`
(lines 42–48).  `generated_content` starts as the empty list and is
overwritten with a four-entry mapping each cycle; we model the mapping as an
insertion-ordered association list, as Python dicts are. -/
structure WorldState where
  day : Nat
  story_summary : String
  player_decisions : List String
  npc_interactions : List NpcDialogue
  generated_content : List (String × String)
deriving DecidableEq

/-- `__init__`: `{"day": 1, "story_summary": "", "player_decisions": [],
"npc_interactions": [], "generated_content": []}`. -/
def init_world_state : WorldState :=
  { day := 1
    story_summary := ""
    player_decisions := []
    npc_interactions := []
    generated_content := [] }

/-- The structured content of the fallback JSON string built with
`json.dumps` in `determine_outcome_and_generate_content` (lines 258–268). -/
structure ComposerFallback where
  outcome : String
  content_prompts : List (String × String)
deriving DecidableEq

/-- The value of the local `content_result` in
`determine_outcome_and_generate_content`: either the agent's raw response
text, or the fallback JSON (kept structured here rather than as the
rendered `json.dumps` string). -/
inductive ContentResult where
  | fromAgent (text : String)
  | fallbackJson (r : ComposerFallback)
deriving DecidableEq

/-- The dictionary returned by `run_daily_game_loop`: one shape for the
successful return (lines 351–360), one for the `except` return
(lines 364–369).  The wall-clock `timestamp` entry is elided. -/
inductive CycleResult where
  | completed (story : String) (npc_dialogues : List NpcDialogue)
      (player_decisions : List String) (content_result : ContentResult)
      (teaser : String) (day : Nat)
  | failed (error : String) (day : Nat)
deriving DecidableEq

/-- The `"status"` entry of the result dictionary. -/
def CycleResult.statusStr : CycleResult → String
  | .completed _ _ _ _ _ _ => "completed"
  | .failed _ _ => "failed"

/-- The `"day"` entry of the result dictionary. -/
def CycleResult.dayOf : CycleResult → Nat
  | .completed _ _ _ _ _ d => d
  | .failed _ d => d

/-- The `"story"` entry of the result dictionary (absent on failure). -/
def CycleResult.storyOf : CycleResult → Option String
  | .completed st _ _ _ _ _ => some st
  | .failed _ _ => none

/-- The `"content_result"` entry of the result dictionary (absent on failure). -/
def CycleResult.contentOf : CycleResult → Option ContentResult
  | .completed _ _ _ c _ _ => some c
  | .failed _ _ => none

/-- The `"npc_dialogues"` entry of the result dictionary (absent on failure). -/
def CycleResult.dialoguesOf : CycleResult → Option (List NpcDialogue)
  | .completed _ ds _ _ _ _ => some ds
  | .failed _ _ => none

/-- An npcpy `NPC` as used by the orchestrator: its `name` and its
`get_llm_response` call, which returns a response dict (modelled as an
association list; the code reads its `"response"` key) or raises. -/
structure Npc where
  name : String
  get_llm_response : String → Except String (List (String × String))

/-- The collaborator state of a `GameMasterAgent` after `initialize`:
`self.agent` (a callable taking a prompt, possibly raising) and
`self.npc_manager` (its list of NPCs).  `none` is Python `None`, the
degraded state tested by `if self.agent:` and `if self.npc_manager and
hasattr(self.npc_manager, "npcs"):`. -/
structure Model where
  agent : Option (String → Except String String)
  npc_manager : Option (List Npc)

/-- `dict.get(key, default)` on a response dict. -/
def dict_get (d : List (String × String)) (key default : String) : String :=
  match d.find? (fun p => p.1 == key) with
  | some p => p.2
  | none => default

/-- The f-string `prompt` of `generate_daily_episode` (lines 138–150). -/
def episode_prompt (day : Nat) (story_summary : String) : String :=
  "\n        Generate a daily episode for an AI cooperative game with the following context:\n        - Day: "
    ++ toString day
    ++ "\n        - Previous story summary: " ++ story_summary
    ++ "\n        \n        Create a compelling narrative that includes:\n        1. A setting (space station, alien planet, spaceship interior)\n        2. A central conflict or mystery\n        3. 3-5 key decision points for players\n        4. Introduce or develop at least 2 NPC characters with distinct personalities\n        \n        Keep the story concise (under 300 words) and engaging for players to vote on.\n        "

/-- The day-independent remainder of the fallback story text of line 157. -/
def fallback_story_rest : String :=
  ": The crew discovers an ancient alien artifact floating in deep space. Strange energy readings emanate from it, and the ship's systems begin acting mysteriously. The crew must decide whether to investigate further or maintain a safe distance."

/-- The fallback story f-string of `generate_daily_episode` (line 157),
produced when `self.agent` is falsy. -/
def fallback_story (day : Nat) : String :=
  "Day " ++ toString day ++ fallback_story_rest

/-- The per-NPC dialogue request f-string (line 167). -/
def dialogue_prompt (story npcName : String) : String :=
  "Context: " ++ story ++ "\n\nGenerate a short, " ++ npcName
    ++ "'s reaction to this situation. Keep it brief and in character."

/-- The fixed fallback dialogue list of `generate_daily_episode`
(lines 187–196), used when the NPC manager is unavailable. -/
def fallback_npc_dialogues : List NpcDialogue :=
  [{ npc := "Captain Eva Rodriguez"
     dialogue := "We need to assess the situation carefully before proceeding." },
   { npc := "Chief Engineer Marcus Chen"
     dialogue := "The ship's systems are holding steady, but I'm detecting unusual energy patterns." }]

/-- The fixed fallback line appended when one NPC's `get_llm_response`
raises (lines 177–184). -/
def silent_fallback_line (npcName : String) : String :=
  npcName ++ " remains silent, contemplating the situation."

/-- The `npc_dialogues` list built by the NPC loop of
`generate_daily_episode` (lines 161–196): per NPC, a `try` around the
dialogue call with the "remains silent" fallback on exception; if the NPC
manager is unavailable, the two fixed fallback dialogues. -/
def npc_dialogues_for (m : Model) (story : String) : List NpcDialogue :=
  match m.npc_manager with
  | some npcs =>
      npcs.map (fun npc =>
        match npc.get_llm_response (dialogue_prompt story npc.name) with
        | .ok d =>
            { npc := npc.name
              dialogue := dict_get d "response" "No response generated" }
        | .error _ =>
            { npc := npc.name
              dialogue := silent_fallback_line npc.name })
  | none => fallback_npc_dialogues

/-- Phase 1, `generate_daily_episode` (lines 133–201): generate the story
(agent call, or fallback story when the agent is unavailable; an agent
exception propagates, leaving the state unchanged), then the NPC dialogue
loop, then store both into the world state.  Returns the Python return
value `(story, npc_dialogues)` together with the updated state. -/
def generate_daily_episode (m : Model) (s : WorldState) :
    Except String (String × List NpcDialogue × WorldState) :=
  let story_e : Except String String :=
    match m.agent with
    | some f => f (episode_prompt s.day s.story_summary)
    | none => .ok (fallback_story s.day)
  match story_e with
  | .error e => .error e
  | .ok story =>
      let npc_dialogues := npc_dialogues_for m story
      .ok (story, npc_dialogues,
        { s with story_summary := story, npc_interactions := npc_dialogues })

/-- The fixed `sample_votes` list of `notify_players_and_collect_votes`
(lines 216–220). -/
def sample_votes : List String :=
  ["Choose the risky path through the asteroid field",
   "Trust the mysterious alien artifact",
   "Send a distress signal to the nearest station"]

/-- Phase 2–3, `notify_players_and_collect_votes` (lines 203–226): no
external call; always stores the fixed `sample_votes` into
`player_decisions` and returns them. -/
def notify_players_and_collect_votes (s : WorldState) :
    List String × WorldState :=
  (sample_votes, { s with player_decisions := sample_votes })

/-- The f-string `outcome_prompt` (lines 235–251).  Python interpolates
`repr` of the dialogue list and the decision list; the exact repr
formatting is abstracted by plain comma-separated rendering. -/
def outcome_prompt (s : WorldState) : String :=
  "\n        Based on the following:\n        - Daily story: " ++ s.story_summary
    ++ "\n        - NPC dialogues: "
    ++ String.intercalate ", " (s.npc_interactions.map (fun d => d.npc ++ ": " ++ d.dialogue))
    ++ "\n        - Player decisions: " ++ String.intercalate ", " s.player_decisions
    ++ "\n        \n        Determine the outcome of the day's events. Create a narrative conclusion\n        that logically follows from the player choices and NPC interactions.\n        \n        Then generate prompts for content generation:\n        1. Image prompt for a key scene (use nunchaku)\n        2. Video prompt for a dynamic moment (use Lightx2v)\n        3. 3D scene prompt for the setting (use TRELLIS2)\n        4. Voiceover prompt for an NPC (use ChatterBox)\n        \n        Return the outcome and the four content generation prompts in JSON format.\n        "

/-- The dict passed to `json.dumps` in the fallback branch of
`determine_outcome_and_generate_content` (lines 258–268). -/
def fallback_content_result : ComposerFallback :=
  { outcome := "The crew's collective decision leads to a breakthrough in understanding the alien technology."
    content_prompts :=
      [("image", "A dramatic scene of the crew examining a glowing alien artifact on the bridge of their spaceship"),
       ("video", "The alien artifact activates, projecting holographic star maps into the ship's bridge"),
       ("3d_scene", "A detailed 3D model of the alien artifact with intricate geometric patterns"),
       ("voiceover", "Captain's log: We've made first contact with an intelligence beyond our comprehension")]}

/-- Local `image_prompt` (line 272). -/
def image_prompt : String := "Generate an image of the key scene from the story"

/-- Local `video_prompt` (line 273). -/
def video_prompt : String := "Generate a short video clip of the dynamic moment"

/-- Local `scene3d_prompt` (line 274). -/
def scene3d_prompt : String := "Generate a 3D scene of the setting"

/-- Local `voiceover_prompt` (line 275). -/
def voiceover_prompt : String := "Generate a voiceover for the NPC speaking the key line"

/-- The dict stored into `self.world_state["generated_content"]`
(lines 278–283): the four fixed placeholder prompts, not values extracted
from `content_result` (the extraction is stubbed, see the comment at
line 271 of the source). -/
def stored_generated_content : List (String × String) :=
  [("image", image_prompt), ("video", video_prompt),
   ("3d_scene", scene3d_prompt), ("voiceover", voiceover_prompt)]

/-- Phase 4–5, `determine_outcome_and_generate_content` (lines 228–293):
agent call on `outcome_prompt` (exception propagates) or the fallback JSON;
then the four fixed placeholder prompts are stored into
`generated_content`; returns `content_result` and the updated state. -/
def determine_outcome_and_generate_content (m : Model) (s : WorldState) :
    Except String (ContentResult × WorldState) :=
  let content_e : Except String ContentResult :=
    match m.agent with
    | some f =>
        match f (outcome_prompt s) with
        | .ok t => .ok (.fromAgent t)
        | .error e => .error e
    | none => .ok (.fallbackJson fallback_content_result)
  match content_e with
  | .error e => .error e
  | .ok content_result =>
      .ok (content_result, { s with generated_content := stored_generated_content })

/-- The f-string `teaser_prompt` of `publish_result` (lines 300–306). -/
def teaser_prompt (s : WorldState) : String :=
  "\n        Based on today's story: " ++ s.story_summary
    ++ "\n        and player decisions: " ++ String.intercalate ", " s.player_decisions
    ++ "\n        \n        Create a short, intriguing teaser (1-2 sentences) for tomorrow's episode.\n        Hint at a new development or mystery without revealing too much.\n        "

/-- The fallback teaser string (line 312). -/
def fallback_teaser : String :=
  "Tomorrow, a new mystery unfolds as the alien artifact reveals its true purpose..."

/-- Phase 6, `publish_result` (lines 295–326): teaser via agent call
(exception propagates, before the increment) or fallback; then
`self.world_state["day"] += 1`; returns the teaser and the updated state. -/
def publish_result (m : Model) (s : WorldState) :
    Except String (String × WorldState) :=
  let teaser_e : Except String String :=
    match m.agent with
    | some f => f (teaser_prompt s)
    | none => .ok fallback_teaser
  match teaser_e with
  | .error e => .error e
  | .ok teaser => .ok (teaser, { s with day := s.day + 1 })

/-- `run_daily_game_loop` (lines 328–369): the six phases in order inside
one `try`; on the first propagating exception the remaining phases are
skipped and the `except` branch returns the failure dictionary with the
live (pre-advance) `world_state["day"]`.  Returns the result dictionary
together with the final world state. -/
def run_daily_game_loop (m : Model) (s : WorldState) :
    CycleResult × WorldState :=
  match generate_daily_episode m s with
  | .error e => (.failed e s.day, s)
  | .ok (story, npc_dialogues, s1) =>
      let (player_decisions, s2) := notify_players_and_collect_votes s1
      match determine_outcome_and_generate_content m s2 with
      | .error e => (.failed e s2.day, s2)
      | .ok (content_result, s3) =>
          match publish_result m s3 with
          | .error e => (.failed e s3.day, s3)
          | .ok (teaser, s4) =>
              (.completed story npc_dialogues player_decisions content_result
                teaser s4.day, s4)

/-- The fully degraded collaborator state: `self.agent is None` and
`self.npc_manager is None`. -/
def degraded_model : Model :=
  { agent := none, npc_manager := none }

example : (run_daily_game_loop degraded_model init_world_state).2.day = 2 := by decide

/-- `self.agent` as set by `initialize`: a strands `Agent` built with the
discovered MCP tools (try branch, line 125), or without tools when the MCP
connection failed (except branch, line 129). -/
inductive AgentInit where
  | withTools (tools : List String)
  | withoutTools
deriving DecidableEq

/-- The collaborator fields of the orchestrator after `initialize`. -/
structure InitResult where
  agent : AgentInit
  npc_manager : Option (List Npc)

/-- `GameMasterAgent.initialize` (lines 50–131), parametrised by the
outcome of its three external interactions:
`llm_ctor` — the `LlamaCppModel(...)` constructor (lines 56–70; a local
object construction that performs no remote connection; on exception the
code re-raises);
`npc_setup` — the npcpy block building the manager with the Captain and
Engineer NPCs (lines 73–101; on exception `self.npc_manager = None`);
`mcp_connect` — the MCP tool-discovery handshake (lines 104–129; on
exception the agent is created without MCP tools). -/
def init_game_master (llm_ctor : Except String Unit)
    (npc_setup : Except String (List Npc))
    (mcp_connect : Except String (List String)) :
    Except String InitResult :=
  match llm_ctor with
  | .error e => .error e
  | .ok _ =>
      let npc_manager : Option (List Npc) :=
        match npc_setup with
        | .ok npcs => some npcs
        | .error _ => none
      let agent : AgentInit :=
        match mcp_connect with
        | .ok tools => .withTools tools
        | .error _ => .withoutTools
      .ok { agent := agent, npc_manager := npc_manager }

/-- The orchestrator returned by the factory: collaborator state plus the
world state built by `__init__`. -/
structure Orchestrator where
  adapters : InitResult
  world_state : WorldState

/-- `create_game_master_agent` (lines 448–462): construct a
`GameMasterAgent` (fresh world state) and run `initialize` on it. -/
def create_game_master_agent (llm_ctor : Except String Unit)
    (npc_setup : Except String (List Npc))
    (mcp_connect : Except String (List String)) :
    Except String Orchestrator :=
  match init_game_master llm_ctor npc_setup mcp_connect with
  | .error e => .error e
  | .ok r => .ok { adapters := r, world_state := init_world_state }

/-- A Python `datetime.datetime` value as used by
`run_scheduled_daily_loop` (naive local time). -/
structure PyDateTime where
  year : Nat
  month : Nat
  day : Nat
  hour : Nat
  minute : Nat
  second : Nat
  microsecond : Nat
deriving DecidableEq

/-- Python `datetime` ordering: lexicographic on the components. -/
def PyDateTime.le (a b : PyDateTime) : Bool :=
  if a.year ≠ b.year then a.year < b.year
  else if a.month ≠ b.month then a.month < b.month
  else if a.day ≠ b.day then a.day < b.day
  else if a.hour ≠ b.hour then a.hour < b.hour
  else if a.minute ≠ b.minute then a.minute < b.minute
  else if a.second ≠ b.second then a.second < b.second
  else a.microsecond ≤ b.microsecond

/-- Gregorian leap-year test, as in Python's `calendar.isleap`. -/
def is_leap (y : Nat) : Bool :=
  (y % 4 == 0 && y % 100 != 0) || y % 400 == 0

/-- Number of days of month `m` of year `y` (months are 1–12). -/
def days_in_month (y m : Nat) : Nat :=
  if m == 2 then (if is_leap y then 29 else 28)
  else if m == 4 || m == 6 || m == 9 || m == 11 then 30
  else 31

/-- Python `datetime.replace(day=d)`: validates the new day against the
unchanged year and month and raises `ValueError` when it is out of range. -/
def replace_day (t : PyDateTime) (d : Nat) : Except String PyDateTime :=
  if 1 ≤ d ∧ d ≤ days_in_month t.year t.month then .ok { t with day := d }
  else .error "ValueError: day is out of range for month"

/-- The next-trigger computation of `run_scheduled_daily_loop`
(lines 378–383): `next_run = now.replace(hour=8, minute=0, second=0,
microsecond=0)`; `if next_run <= now: next_run =
next_run.replace(day=next_run.day + 1)`.  The `replace` call raises
`ValueError` when `next_run.day + 1` exceeds the length of the current
month. -/
def compute_next_run (now : PyDateTime) : Except String PyDateTime :=
  let next_run : PyDateTime :=
    { now with hour := 8, minute := 0, second := 0, microsecond := 0 }
  if next_run.le now then replace_day next_run (next_run.day + 1)
  else .ok next_run

/-- Outcome of one iteration of the scheduled loop body: either it slept
until `next_run` and ran one cycle, or an exception was caught by the
`except` branch and the loop slept `sleep_seconds` (3600) before retrying. -/
inductive SchedOutcome where
  | ranCycle (next_run : PyDateTime) (result : CycleResult)
  | errorBackoff (sleep_seconds : Nat)
deriving DecidableEq

/-- One iteration of the `while True` body of `run_scheduled_daily_loop`
(lines 375–398).  The awaited cycle attempt (`await
self.run_daily_game_loop()`, line 392) is a parameter so that the `except
Exception` contract covers any exception escaping it; the concrete attempt
of the source is `fun s => .ok (run_daily_game_loop m s)`, which never
throws.  Any exception — from the trigger computation or from the attempt —
is caught and followed by `await asyncio.sleep(3600)`. -/
def run_scheduled_daily_loop_iteration (now : PyDateTime)
    (attempt : WorldState → Except String (CycleResult × WorldState))
    (s : WorldState) : SchedOutcome × WorldState :=
  match compute_next_run now with
  | .error _ => (.errorBackoff 3600, s)
  | .ok next_run =>
      match attempt s with
      | .error _ => (.errorBackoff 3600, s)
      | .ok (r, s') => (.ranCycle next_run r, s')

/-- One iteration of the `while True` body of `run_timed_simulation`
(lines 404–434): the four phase calls with their fixed sleeps (1 s, 30 s,
10 s, then 60 s before the next cycle); any exception is caught and
followed by `await asyncio.sleep(10)`.  Returns the trace of sleep
durations in seconds, whether the simulated cycle completed, and the new
state. -/
def run_timed_simulation_iteration (m : Model) (s : WorldState) :
    List Nat × Bool × WorldState :=
  match generate_daily_episode m s with
  | .error _ => ([10], false, s)
  | .ok (_, _, s1) =>
      let (_, s2) := notify_players_and_collect_votes s1
      match determine_outcome_and_generate_content m s2 with
      | .error _ => ([1, 30, 10], false, s2)
      | .ok (_, s3) =>
          match publish_result m s3 with
          | .error _ => ([1, 30, 10, 10], false, s3)
          | .ok (_, s4) => ([1, 30, 10, 60], true, s4)

/-- A collaborator state whose agent call always raises, used to exercise
the failure paths. -/
def failing_model : Model :=
  { agent := some (fun _ => Except.error "boom"), npc_manager := none }

/-- Helper: what a successful Phase 1 return says about its components. -/
theorem generate_ok_parts {m : Model} {s : WorldState} {st : String}
    {ds : List NpcDialogue} {s1 : WorldState}
    (h : generate_daily_episode m s = .ok (st, ds, s1)) :
    ds = npc_dialogues_for m st ∧
    s1 = { s with story_summary := st, npc_interactions := ds } := by
  unfold generate_daily_episode at h
  cases hm : m.agent with
  | none =>
      simp only [hm, Except.ok.injEq, Prod.mk.injEq] at h
      obtain ⟨h1, h2, h3⟩ := h
      subst h1; subst h2; subst h3
      exact ⟨rfl, rfl⟩
  | some f =>
      simp only [hm] at h
      cases hf : f (episode_prompt s.day s.story_summary) with
      | error e => rw [hf] at h; exact Except.noConfusion h
      | ok story =>
          simp only [hf, Except.ok.injEq, Prod.mk.injEq] at h
          obtain ⟨h1, h2, h3⟩ := h
          subst h1; subst h2; subst h3
          exact ⟨rfl, rfl⟩

/-- Helper: what a successful Phase 4–5 return says about the new state. -/
theorem determine_ok_parts {m : Model} {s : WorldState} {c : ContentResult}
    {s3 : WorldState}
    (h : determine_outcome_and_generate_content m s = .ok (c, s3)) :
    s3 = { s with generated_content := stored_generated_content } := by
  unfold determine_outcome_and_generate_content at h
  cases hm : m.agent with
  | none =>
      simp only [hm, Except.ok.injEq, Prod.mk.injEq] at h
      exact h.2.symm
  | some f =>
      simp only [hm] at h
      cases hf : f (outcome_prompt s) with
      | error e => rw [hf] at h; exact Except.noConfusion h
      | ok t =>
          simp only [hf, Except.ok.injEq, Prod.mk.injEq] at h
          exact h.2.symm

/-- Helper: what a successful Phase 6 return says about the new state. -/
theorem publish_ok_parts {m : Model} {s : WorldState} {t : String}
    {s4 : WorldState} (h : publish_result m s = .ok (t, s4)) :
    s4 = { s with day := s.day + 1 } := by
  unfold publish_result at h
  cases hm : m.agent with
  | none =>
      simp only [hm, Except.ok.injEq, Prod.mk.injEq] at h
      exact h.2.symm
  | some f =>
      simp only [hm] at h
      cases hf : f (teaser_prompt s) with
      | error e => rw [hf] at h; exact Except.noConfusion h
      | ok t' =>
          simp only [hf, Except.ok.injEq, Prod.mk.injEq] at h
          exact h.2.symm

/-- Helper: with a degraded agent every phase takes its fallback and one
cycle completes, advancing the day. -/
theorem run_loop_agent_none (m : Model) (s : WorldState) (hm : m.agent = none) :
    run_daily_game_loop m s =
      (.completed (fallback_story s.day) (npc_dialogues_for m (fallback_story s.day))
          sample_votes (.fallbackJson fallback_content_result) fallback_teaser (s.day + 1),
       { day := s.day + 1, story_summary := fallback_story s.day,
         player_decisions := sample_votes,
         npc_interactions := npc_dialogues_for m (fallback_story s.day),
         generated_content := stored_generated_content }) := by
  obtain ⟨a, nm⟩ := m
  cases a with
  | none => rfl
  | some f => simp at hm

/-- Helper: every cycle attempt either completes with the day advanced by
one, or fails with the day unchanged. -/
theorem run_day_cases (m : Model) (s : WorldState) :
    ((run_daily_game_loop m s).1.statusStr = "completed" ∧
       (run_daily_game_loop m s).2.day = s.day + 1 ∧
       (run_daily_game_loop m s).1.dayOf = s.day + 1) ∨
    ((run_daily_game_loop m s).1.statusStr = "failed" ∧
       (run_daily_game_loop m s).2.day = s.day ∧
       (run_daily_game_loop m s).1.dayOf = s.day) := by
  cases hg : generate_daily_episode m s with
  | error e =>
      right
      simp only [run_daily_game_loop, hg, CycleResult.statusStr, CycleResult.dayOf]
      exact ⟨trivial, trivial, trivial⟩
  | ok v =>
      obtain ⟨st, ds, s1⟩ := v
      obtain ⟨-, hs1⟩ := generate_ok_parts hg
      cases hd : determine_outcome_and_generate_content m
          { s1 with player_decisions := sample_votes } with
      | error e =>
          right
          simp only [run_daily_game_loop, hg, notify_players_and_collect_votes, hd,
            CycleResult.statusStr, CycleResult.dayOf]
          refine ⟨trivial, ?_, ?_⟩ <;> rw [hs1]
      | ok v2 =>
          obtain ⟨c, s3⟩ := v2
          have hs3 := determine_ok_parts hd
          cases hp : publish_result m s3 with
          | error e =>
              right
              simp only [run_daily_game_loop, hg, notify_players_and_collect_votes, hd, hp,
                CycleResult.statusStr, CycleResult.dayOf]
              refine ⟨trivial, ?_, ?_⟩ <;> rw [hs3, hs1]
          | ok v3 =>
              obtain ⟨t, s4⟩ := v3
              have hs4 := publish_ok_parts hp
              left
              simp only [run_daily_game_loop, hg, notify_players_and_collect_votes, hd, hp,
                CycleResult.statusStr, CycleResult.dayOf]
              refine ⟨trivial, ?_, ?_⟩ <;> rw [hs4, hs3, hs1]

/-- C1: For every sequence of cycle attempts by one orchestrator instance,
the `day` field starts at 1, is incremented by exactly 1 at the end of
every successfully completed cycle, is never decremented, and never changes
on a cycle attempt that returns status `failed`. -/
theorem day_field_invariant :
    init_world_state.day = 1 ∧
    ∀ (m : Model) (s : WorldState),
      ((run_daily_game_loop m s).1.statusStr = "completed" →
        (run_daily_game_loop m s).2.day = s.day + 1) ∧
      ((run_daily_game_loop m s).1.statusStr = "failed" →
        (run_daily_game_loop m s).2.day = s.day) ∧
      s.day ≤ (run_daily_game_loop m s).2.day := by
  refine ⟨rfl, fun m s => ?_⟩
  rcases run_day_cases m s with ⟨hc, hday, -⟩ | ⟨hf, hday, -⟩
  · refine ⟨fun _ => hday, fun hcontra => absurd (hc.symm.trans hcontra) (by decide), ?_⟩
    exact hday ▸ Nat.le_succ s.day
  · refine ⟨fun hcontra => absurd (hf.symm.trans hcontra) (by decide), fun _ => hday, ?_⟩
    exact hday ▸ Nat.le_refl s.day

/-- Witness for C1: on the all-degraded model one cycle completes and
advances the day from 1 to 2; on a model whose agent call raises, the cycle
fails and the day stays 1. -/
theorem day_field_invariant_witness :
    (run_daily_game_loop degraded_model init_world_state).2.day
        = init_world_state.day + 1 ∧
    (run_daily_game_loop failing_model init_world_state).2.day
        = init_world_state.day :=
  ⟨(day_field_invariant.2 degraded_model init_world_state).1 (by decide),
   (day_field_invariant.2 failing_model init_world_state).2.1 (by decide)⟩

/-- C2: Starting from the freshly constructed WorldState
(day 1, empty story) with every adapter degraded, one `run_daily_game_loop`
call returns status `completed` and day 2, `npc_interactions` is exactly
the two fixed fallback lines, and `generated_content` has exactly the four
keys `image`, `video`, `3d_scene`, `voiceover`. -/
theorem run_once_all_degraded :
    run_daily_game_loop degraded_model init_world_state =
      (.completed (fallback_story 1) fallback_npc_dialogues sample_votes
          (.fallbackJson fallback_content_result) fallback_teaser 2,
       { day := 2, story_summary := fallback_story 1,
         player_decisions := sample_votes,
         npc_interactions := fallback_npc_dialogues,
         generated_content := stored_generated_content }) ∧
    (run_daily_game_loop degraded_model init_world_state).1.statusStr = "completed" ∧
    (run_daily_game_loop degraded_model init_world_state).1.dayOf = 2 ∧
    fallback_npc_dialogues.length = 2 ∧
    (run_daily_game_loop degraded_model init_world_state).2.generated_content.map Prod.fst
      = ["image", "video", "3d_scene", "voiceover"] :=
  ⟨rfl, rfl, rfl, rfl, rfl⟩

/-- C3: Construction plus `initialize` never hard-fails on unreachable
remote collaborators: for every combination of outcomes of the npcpy setup
block and of the MCP tool-discovery handshake (the two initialization steps
that reach outside), the factory returns an orchestrator, with the failed
adapter marked degraded (`npc_manager = None`, agent without MCP tools).
The `LlamaCppModel(...)` constructor argument is `.ok ()` because that
constructor only builds a local configuration object — no backend being
unreachable can make it fail, so its re-raise branch (line 70) is not a
remote-connection abort. -/
theorem create_agent_degrades_never_aborts
    (npc_setup : Except String (List Npc))
    (mcp_connect : Except String (List String)) :
    ∃ orch : Orchestrator,
      create_game_master_agent (.ok ()) npc_setup mcp_connect = .ok orch ∧
      orch.adapters.npc_manager
          = (match npc_setup with | .ok npcs => some npcs | .error _ => none) ∧
      orch.adapters.agent
          = (match mcp_connect with
             | .ok tools => AgentInit.withTools tools
             | .error _ => AgentInit.withoutTools) ∧
      orch.world_state = init_world_state :=
  ⟨_, rfl, rfl, rfl, rfl⟩

/-- The scheduled loop's current time in the failing scenario: 09:00 on the
last day of a month (2024-01-31), after the 08:00 trigger has elapsed. -/
def jan31_0900 : PyDateTime :=
  { year := 2024, month := 1, day := 31, hour := 9, minute := 0,
    second := 0, microsecond := 0 }

/-- C5: the next-trigger computation of `run_scheduled_daily_loop`.
Mid-month the computed next run is 08:00 the following calendar day
(2024-01-15 09:00 gives 2024-01-16 08:00), as the claim states; but on the
last day of a month the code's `next_run.replace(day=next_run.day + 1)`
raises `ValueError` (day 32 is out of range for January) instead of
producing 08:00 on the first of the next month, so no next-run instant is
computed at all — the loop's `except` handler turns this into a 3600 s
backoff. -/
theorem next_run_month_end_value_error :
    compute_next_run jan31_0900
        = .error "ValueError: day is out of range for month" ∧
    compute_next_run
        { year := 2024, month := 1, day := 15, hour := 9, minute := 0,
          second := 0, microsecond := 0 }
      = .ok { year := 2024, month := 1, day := 16, hour := 8, minute := 0,
              second := 0, microsecond := 0 } :=
  ⟨rfl, rfl⟩

/-- C9: With a permanently degraded narrative adapter the story of a cycle
is the fixed template embedding only the day number: two consecutive
single-shot cycles from any state produce `"Day " ++ d ++ rest` and
`"Day " ++ (d+1) ++ rest` with the same day-independent `rest`. -/
theorem fallback_story_deterministic (m : Model) (s : WorldState)
    (hm : m.agent = none) :
    (run_daily_game_loop m s).1.storyOf = some (fallback_story s.day) ∧
    (run_daily_game_loop m (run_daily_game_loop m s).2).1.storyOf
        = some (fallback_story (s.day + 1)) ∧
    (run_daily_game_loop m s).2.day = s.day + 1 ∧
    ∀ d : Nat, fallback_story d = "Day " ++ toString d ++ fallback_story_rest := by
  rw [run_loop_agent_none m s hm]
  rw [run_loop_agent_none m _ hm]
  exact ⟨rfl, rfl, rfl, fun _ => rfl⟩

/-- Witness for C9: first cycle of the all-degraded orchestrator yields the
day-1 fallback story. -/
theorem fallback_story_deterministic_witness :
    (run_daily_game_loop degraded_model init_world_state).1.storyOf
      = some (fallback_story init_world_state.day) :=
  (fallback_story_deterministic degraded_model init_world_state rfl).1

/-- C10: The vote-collection phase stores the same fixed ordered list of
three decision strings into `player_decisions` on every cycle, regardless
of the story or any adapter: its output does not depend on its input
state at all. -/
theorem collect_votes_fixed_output :
    (∀ s : WorldState,
       notify_players_and_collect_votes s
         = (sample_votes, { s with player_decisions := sample_votes })) ∧
    sample_votes =
      ["Choose the risky path through the asteroid field",
       "Trust the mysterious alien artifact",
       "Send a distress signal to the nearest station"] ∧
    ∀ s t : WorldState,
      (notify_players_and_collect_votes s).1 = (notify_players_and_collect_votes t).1 :=
  ⟨fun _ => rfl, rfl, fun _ _ => rfl⟩

/-- Counterexample to C4: in the all-degraded run the ContentComposer call
produced the fallback result, whose `content_prompts` are the four fixed
prompt templates of lines 261–266, yet the mapping stored into
`generated_content` is not those prompts (already its `image` entry
differs: the placeholder of line 272 versus the composed prompt). -/
theorem generated_content_not_composer_output :
    (run_daily_game_loop degraded_model init_world_state).1.contentOf
        = some (.fallbackJson fallback_content_result) ∧
    (run_daily_game_loop degraded_model init_world_state).2.generated_content
        ≠ fallback_content_result.content_prompts ∧
    dict_get (run_daily_game_loop degraded_model init_world_state).2.generated_content
        "image" ""
      ≠ dict_get fallback_content_result.content_prompts "image" "" := by
  refine ⟨rfl, ?_, ?_⟩ <;> decide

/-- C4 (amended): in Phase 4–5 the four prompts stored into
`generated_content` are the four fixed placeholder strings of
lines 272–275, independent of the result of the ContentComposer call; the
stored mapping has exactly the keys `image`, `video`, `3d_scene`,
`voiceover`. -/
theorem generated_content_fixed_placeholders (m : Model) (s : WorldState)
    (c : ContentResult) (s3 : WorldState)
    (h : determine_outcome_and_generate_content m s = .ok (c, s3)) :
    s3.generated_content = stored_generated_content ∧
    s3.generated_content.map Prod.fst = ["image", "video", "3d_scene", "voiceover"] ∧
    stored_generated_content =
      [("image", image_prompt), ("video", video_prompt),
       ("3d_scene", scene3d_prompt), ("voiceover", voiceover_prompt)] := by
  have h3 := determine_ok_parts h
  subst h3
  exact ⟨rfl, rfl, rfl⟩

/-- Witness for the amended C4, at the degraded composer on the fresh
world state. -/
theorem generated_content_fixed_placeholders_witness :
    ({ init_world_state with generated_content := stored_generated_content } : WorldState).generated_content
        = stored_generated_content ∧
    ({ init_world_state with generated_content := stored_generated_content } : WorldState).generated_content.map Prod.fst
        = ["image", "video", "3d_scene", "voiceover"] ∧
    stored_generated_content =
      [("image", image_prompt), ("video", video_prompt),
       ("3d_scene", scene3d_prompt), ("voiceover", voiceover_prompt)] :=
  generated_content_fixed_placeholders degraded_model init_world_state
    (.fallbackJson fallback_content_result)
    { init_world_state with generated_content := stored_generated_content } rfl

/-- C6: in the episode-generation phase with two configured NPCs, when
exactly one NPC's dialogue call raises, `npc_interactions` still has
length 2, the failing NPC's entry is its fixed "remains silent" fallback
line naming it, and the other NPC's entry is its generated dialogue
(the `"response"` field of its response dict); neither order of failure
blocks the other NPC. -/
theorem npc_failure_isolated (m : Model) (s : WorldState) (a b : Npc)
    (st : String) (ds : List NpcDialogue) (s1 : WorldState)
    (e : String) (d : List (String × String))
    (hm : m.npc_manager = some [a, b])
    (hg : generate_daily_episode m s = .ok (st, ds, s1)) :
    (a.get_llm_response (dialogue_prompt st a.name) = .error e →
     b.get_llm_response (dialogue_prompt st b.name) = .ok d →
       ds = [⟨a.name, silent_fallback_line a.name⟩,
             ⟨b.name, dict_get d "response" "No response generated"⟩] ∧
       ds.length = 2 ∧ s1.npc_interactions = ds) ∧
    (a.get_llm_response (dialogue_prompt st a.name) = .ok d →
     b.get_llm_response (dialogue_prompt st b.name) = .error e →
       ds = [⟨a.name, dict_get d "response" "No response generated"⟩,
             ⟨b.name, silent_fallback_line b.name⟩] ∧
       ds.length = 2 ∧ s1.npc_interactions = ds) := by
  obtain ⟨hds, hs1⟩ := generate_ok_parts hg
  constructor
  · intro ha hb
    have hds2 : ds =
        [⟨a.name, silent_fallback_line a.name⟩,
         ⟨b.name, dict_get d "response" "No response generated"⟩] := by
      rw [hds]
      simp only [npc_dialogues_for, hm, List.map_cons, List.map_nil, ha, hb]
    refine ⟨hds2, ?_, ?_⟩
    · simp [hds2]
    · simp [hs1]
  · intro ha hb
    have hds2 : ds =
        [⟨a.name, dict_get d "response" "No response generated"⟩,
         ⟨b.name, silent_fallback_line b.name⟩] := by
      rw [hds]
      simp only [npc_dialogues_for, hm, List.map_cons, List.map_nil, ha, hb]
    refine ⟨hds2, ?_, ?_⟩
    · simp [hds2]
    · simp [hs1]

/-- An NPC whose dialogue call always raises, named as the source's
captain. -/
def npcA : Npc :=
  { name := "Captain Eva Rodriguez"
    get_llm_response := fun _ => Except.error "timeout" }

/-- An NPC whose dialogue call returns a response dict, named as the
source's engineer. -/
def npcB : Npc :=
  { name := "Chief Engineer Marcus Chen"
    get_llm_response := fun _ => Except.ok [("response", "Fascinating readings, Captain.")] }

/-- Collaborator state with two configured NPCs (first failing) and a
degraded narrative agent. -/
def two_npc_model : Model :=
  { agent := none, npc_manager := some [npcA, npcB] }

/-- Witness for C6: with the captain's call raising and the engineer's
succeeding, the phase yields exactly the silent line and the generated
dialogue, in order. -/
theorem npc_failure_isolated_witness :
    npc_dialogues_for two_npc_model (fallback_story 1)
        = [⟨npcA.name, silent_fallback_line npcA.name⟩,
           ⟨npcB.name,
            dict_get [("response", "Fascinating readings, Captain.")] "response"
              "No response generated"⟩] ∧
    (npc_dialogues_for two_npc_model (fallback_story 1)).length = 2 ∧
    ({ init_world_state with
        story_summary := fallback_story 1,
        npc_interactions := npc_dialogues_for two_npc_model (fallback_story 1) } : WorldState).npc_interactions
      = npc_dialogues_for two_npc_model (fallback_story 1) :=
  (npc_failure_isolated two_npc_model init_world_state npcA npcB
      (fallback_story 1)
      (npc_dialogues_for two_npc_model (fallback_story 1))
      { init_world_state with
        story_summary := fallback_story 1,
        npc_interactions := npc_dialogues_for two_npc_model (fallback_story 1) }
      "timeout" [("response", "Fascinating readings, Captain.")]
      rfl rfl).1 rfl rfl

/-- C7: a cycle attempt in which a phase raises returns a failed
`CycleResult` carrying the raised error and the current (pre-advance) day,
leaves the day unchanged, and the error comes from the first failing phase
(episode generation, outcome/content composition, or publication), the
later phases being skipped.  The failure is a return value of the total
function `run_daily_game_loop`, not a propagated exception. -/
theorem failed_cycle_result (m : Model) (s : WorldState) (e : String) (d : Nat)
    (h : (run_daily_game_loop m s).1 = .failed e d) :
    d = s.day ∧
    (run_daily_game_loop m s).2.day = s.day ∧
    (run_daily_game_loop m s).1.statusStr = "failed" ∧
    (generate_daily_episode m s = .error e ∨
     (∃ st ds s1, generate_daily_episode m s = .ok (st, ds, s1) ∧
        determine_outcome_and_generate_content m
          (notify_players_and_collect_votes s1).2 = .error e) ∨
     (∃ st ds s1 c s3, generate_daily_episode m s = .ok (st, ds, s1) ∧
        determine_outcome_and_generate_content m
          (notify_players_and_collect_votes s1).2 = .ok (c, s3) ∧
        publish_result m s3 = .error e)) := by
  cases hg : generate_daily_episode m s with
  | error e0 =>
      have hrun : run_daily_game_loop m s = (.failed e0 s.day, s) := by
        simp only [run_daily_game_loop, hg]
      rw [hrun] at h
      injection h with he hd
      subst he
      subst hd
      exact ⟨rfl, by rw [hrun], by simp [hrun, CycleResult.statusStr], Or.inl rfl⟩
  | ok v =>
      obtain ⟨st, ds, s1⟩ := v
      obtain ⟨-, hs1⟩ := generate_ok_parts hg
      cases hd2 : determine_outcome_and_generate_content m
          { s1 with player_decisions := sample_votes } with
      | error e0 =>
          have hrun : run_daily_game_loop m s
              = (.failed e0 s1.day, { s1 with player_decisions := sample_votes }) := by
            simp only [run_daily_game_loop, hg, notify_players_and_collect_votes, hd2]
          rw [hrun] at h
          injection h with he hd
          subst he
          have hsd : s1.day = s.day := by rw [hs1]
          refine ⟨hd ▸ hsd, by rw [hrun, hs1], by simp [hrun, CycleResult.statusStr],
            Or.inr (Or.inl ⟨st, ds, s1, rfl, ?_⟩)⟩
          exact hd2
      | ok v2 =>
          obtain ⟨c, s3⟩ := v2
          have hs3 := determine_ok_parts hd2
          cases hp : publish_result m s3 with
          | error e0 =>
              have hrun : run_daily_game_loop m s = (.failed e0 s3.day, s3) := by
                simp only [run_daily_game_loop, hg, notify_players_and_collect_votes,
                  hd2, hp]
              rw [hrun] at h
              injection h with he hd
              subst he
              have hsd : s3.day = s.day := by rw [hs3, hs1]
              refine ⟨hd ▸ hsd, by rw [hrun, hs3, hs1], by simp [hrun, CycleResult.statusStr],
                Or.inr (Or.inr ⟨st, ds, s1, c, s3, rfl, ?_, hp⟩)⟩
              exact hd2
          | ok v3 =>
              obtain ⟨t, s4⟩ := v3
              have hrun : run_daily_game_loop m s
                  = (.completed st ds sample_votes c t s4.day, s4) := by
                simp only [run_daily_game_loop, hg, notify_players_and_collect_votes,
                  hd2, hp]
              rw [hrun] at h
              exact CycleResult.noConfusion h

/-- Witness for C7: a model whose agent call raises "boom" makes the cycle
attempt return a failed result with the pre-advance day 1. -/
theorem failed_cycle_result_witness :
    (1 : Nat) = init_world_state.day ∧
    (run_daily_game_loop failing_model init_world_state).1.statusStr = "failed" :=
  ⟨(failed_cycle_result failing_model init_world_state "boom" 1 rfl).1,
   (failed_cycle_result failing_model init_world_state "boom" 1 rfl).2.2.1⟩

/-- C8: neither continuous loop terminates because of an error inside one
iteration.  In scheduled mode, an exception from the next-trigger
computation or from the cycle attempt is caught and followed by the fixed
3600 s backoff, leaving the state intact for the next iteration; in
simulation mode, an exception from any phase is caught and followed by the
shorter 10 s retry suspension, and the iteration still returns a successor
state.  Both iteration bodies are total functions: no error escapes. -/
theorem loop_iterations_survive_errors :
    (∀ (now : PyDateTime)
       (attempt : WorldState → Except String (CycleResult × WorldState))
       (s : WorldState) (e : String),
       compute_next_run now = .error e →
       run_scheduled_daily_loop_iteration now attempt s = (.errorBackoff 3600, s)) ∧
    (∀ (now : PyDateTime)
       (attempt : WorldState → Except String (CycleResult × WorldState))
       (s : WorldState) (nr : PyDateTime) (e : String),
       compute_next_run now = .ok nr → attempt s = .error e →
       run_scheduled_daily_loop_iteration now attempt s = (.errorBackoff 3600, s)) ∧
    (∀ (m : Model) (s : WorldState) (e : String),
       generate_daily_episode m s = .error e →
       run_timed_simulation_iteration m s = ([10], false, s)) ∧
    (∀ (m : Model) (s : WorldState) (st : String) (ds : List NpcDialogue)
       (s1 : WorldState) (e : String),
       generate_daily_episode m s = .ok (st, ds, s1) →
       determine_outcome_and_generate_content m
         { s1 with player_decisions := sample_votes } = .error e →
       run_timed_simulation_iteration m s
         = ([1, 30, 10], false, { s1 with player_decisions := sample_votes })) ∧
    (∀ (m : Model) (s : WorldState) (st : String) (ds : List NpcDialogue)
       (s1 : WorldState) (c : ContentResult) (s3 : WorldState) (e : String),
       generate_daily_episode m s = .ok (st, ds, s1) →
       determine_outcome_and_generate_content m
         { s1 with player_decisions := sample_votes } = .ok (c, s3) →
       publish_result m s3 = .error e →
       run_timed_simulation_iteration m s = ([1, 30, 10, 10], false, s3)) := by
  refine ⟨?_, ?_, ?_, ?_, ?_⟩
  · intro now attempt s e h
    simp only [run_scheduled_daily_loop_iteration, h]
  · intro now attempt s nr e h1 h2
    simp only [run_scheduled_daily_loop_iteration, h1, h2]
  · intro m s e h
    simp only [run_timed_simulation_iteration, h]
  · intro m s st ds s1 e h1 h2
    simp only [run_timed_simulation_iteration, h1,
      notify_players_and_collect_votes, h2]
  · intro m s st ds s1 c s3 e h1 h2 h3
    simp only [run_timed_simulation_iteration, h1,
      notify_players_and_collect_votes, h2, h3]

/-- Witness for C8: at 09:00 on 2024-01-31 the trigger computation raises
and the scheduled iteration backs off 3600 s; a raising agent makes the
simulation iteration retry after 10 s.  Both leave the state unchanged. -/
theorem loop_iterations_survive_errors_witness :
    run_scheduled_daily_loop_iteration jan31_0900
        (fun s => .ok (run_daily_game_loop degraded_model s)) init_world_state
      = (.errorBackoff 3600, init_world_state) ∧
    run_timed_simulation_iteration failing_model init_world_state
      = ([10], false, init_world_state) :=
  ⟨loop_iterations_survive_errors.1 jan31_0900
      (fun s => .ok (run_daily_game_loop degraded_model s)) init_world_state
      "ValueError: day is out of range for month" rfl,
   loop_iterations_survive_errors.2.2.1 failing_model init_world_state "boom" rfl⟩
